import Mathlib

/-!
Shallow embedding of `src/Juggler.py` (classes `NetcatListener` and
`ConnectionManager`).

Modelling conventions:
* A Python `subprocess.Popen` handle is a `Proc` record (pid plus whether a
  termination signal was delivered); `self.process` is an `Option Proc`
  (`None` becomes `none`).
* `queue.Queue` is a FIFO `List String` (front = oldest). The background
  capture threads are the producers; in this sequential embedding the queue
  contents at the moment of a call are simply part of the state.
* Side effects (prints to stdout/stderr, writes to the child's stdin,
  `terminate`/`wait`, `time.sleep`) are recorded in an `Event` trace that each
  operation returns alongside its result.
* Whether `subprocess.Popen` succeeds is decided by the environment, passed in
  as a `SpawnOutcome` argument to `start`/`add_connection`.
* A Python `dict` is an insertion-ordered association list with unique keys:
  assignment to a fresh key appends, assignment to a present key updates in
  place, `del` removes the entry, and iterating `.keys()` while the dict
  changes size raises `RuntimeError` at the next call to the iterator, exactly
  as CPython does.
-/

/-- Python `str.strip` / `str.rstrip` whitespace set: `' '`, `\t`, `\n`, `\r`,
`\x0b` (vertical tab), `\x0c` (form feed). -/
def pyIsSpace (c : Char) : Bool :=
  c = ' ' || c = '\t' || c = '\n' || c = '\r' || c = '\x0b' || c = '\x0c'

/-- Python `str.strip()`: removes leading and trailing whitespace. -/
def pyStrip (s : String) : String :=
  String.mk (((s.data.dropWhile pyIsSpace).reverse.dropWhile pyIsSpace).reverse)

/-- Python `str.rstrip()`: removes trailing whitespace only. Used to state the
spec's description of `receive()` ("trims trailing whitespace") next to the
code's actual `.strip()`. -/
def pyRStrip (s : String) : String :=
  String.mk ((s.data.reverse.dropWhile pyIsSpace).reverse)

/-- A spawned child process: its pid and whether `terminate()` has been
delivered to it. -/
structure Proc where
  pid : Nat
  terminated : Bool
deriving DecidableEq

/-- Observable side effects of the Python code. -/
inductive Event where
  /-- `print(msg)` to stdout. -/
  | printed (msg : String)
  /-- `print(msg, file=sys.stderr)`. -/
  | printedErr (msg : String)
  /-- `self.process.stdin.write(data)` on the listener for `port`
  (`data` is the exact text written, line terminator included). -/
  | wroteStdin (port : Nat) (data : String)
  /-- `self.process.stdin.flush()` on the listener for `port`. -/
  | flushedStdin (port : Nat)
  /-- `self.process.terminate()` on the process with this pid. -/
  | terminatedProc (pid : Nat)
  /-- `self.process.wait()` on the process with this pid. -/
  | waitedProc (pid : Nat)
  /-- `time.sleep` for this many milliseconds. -/
  | slept (ms : Nat)
deriving DecidableEq

/-- How the environment answers an attempted `subprocess.Popen`. -/
inductive SpawnOutcome where
  /-- Spawn succeeded, child has this pid. -/
  | ok (pid : Nat)
  /-- `FileNotFoundError`: the `nc` binary is unavailable. -/
  | fileNotFound
  /-- Any other exception, with its message. -/
  | otherError (msg : String)
deriving DecidableEq

/-- `true` on the two exception branches of `NetcatListener.start`. -/
def SpawnOutcome.failed : SpawnOutcome → Bool
  | .ok _ => false
  | .fileNotFound => true
  | .otherError _ => true

/-- State of one `NetcatListener` object (class `NetcatListener`,
`src/Juggler.py` lines 29-94). -/
structure NetcatListener where
  port : Nat
  process : Option Proc
  stdout_queue : List String
  stderr_queue : List String
  running : Bool
deriving DecidableEq

/-- `NetcatListener.__init__` (lines 30-35). -/
def NetcatListener.init (port : Nat) : NetcatListener :=
  { port := port
    process := none
    stdout_queue := []
    stderr_queue := []
    running := true }

/-- `NetcatListener.start` (lines 37-57): attempt `subprocess.Popen`; on
success record the handle (the reader threads are the queue producers, not
modelled as separate state); on `FileNotFoundError` or any other exception
print to stderr and leave the listener unchanged. Every branch first prints
the "Starting ..." line, since `print` precedes `Popen` in the `try` block. -/
def NetcatListener.start (l : NetcatListener) (out : SpawnOutcome) :
    NetcatListener × List Event :=
  match out with
  | .ok pid =>
      ({ l with process := some { pid := pid, terminated := false } },
       [Event.printed ("Starting netcat listener on port " ++ toString l.port ++ "..."),
        Event.printed ("Netcat listener started on port " ++ toString l.port ++
          " with PID " ++ toString pid)])
  | .fileNotFound =>
      (l,
       [Event.printed ("Starting netcat listener on port " ++ toString l.port ++ "..."),
        Event.printedErr "Netcat (nc) is not installed. Please install it and try again."])
  | .otherError msg =>
      (l,
       [Event.printed ("Starting netcat listener on port " ++ toString l.port ++ "..."),
        Event.printedErr ("Error starting netcat: " ++ msg)])

/-- `NetcatListener.stop` (lines 75-83): if `self.process` is set (truthy),
set `running := False`, `terminate()`, `wait()`; note it does NOT reset
`self.process` to `None`. Otherwise print that the listener is not running. -/
def NetcatListener.stop (l : NetcatListener) : NetcatListener × List Event :=
  match l.process with
  | some pr =>
      ({ l with running := false, process := some { pr with terminated := true } },
       [Event.printed ("Stopping netcat listener on port " ++ toString l.port ++ "..."),
        Event.terminatedProc pr.pid,
        Event.waitedProc pr.pid,
        Event.printed ("Netcat listener stopped on port " ++ toString l.port ++ ".")])
  | none =>
      (l, [Event.printed ("Netcat listener on port " ++ toString l.port ++ " is not running.")])

/-- `NetcatListener.send_data` (lines 85-88): if `self.process` is set, write
`data + '\n'` to the child's stdin and flush; otherwise do nothing at all. -/
def NetcatListener.send_data (l : NetcatListener) (data : String) :
    NetcatListener × List Event :=
  match l.process with
  | some _ => (l, [Event.wroteStdin l.port (data ++ "\n"), Event.flushedStdin l.port])
  | none => (l, [])

/-- `NetcatListener.receive_data` (lines 90-94): drain the stdout queue in
FIFO order into one string (`while not empty: output += get()`), then return
`output.strip()`. -/
def NetcatListener.receive_data (l : NetcatListener) : NetcatListener × String :=
  ({ l with stdout_queue := [] }, pyStrip (String.join l.stdout_queue))

/-! ### Python `dict` on an association list (insertion order, unique keys) -/

/-- The keys of the dict, in order. -/
def dictKeys (d : List (Nat × NetcatListener)) : List Nat :=
  d.map Prod.fst

/-- Python `k in d` (membership among keys). -/
def dictMem (d : List (Nat × NetcatListener)) (k : Nat) : Bool :=
  decide (k ∈ dictKeys d)

/-- Python `d[k]` as a total lookup (`none` when `k` is absent, where Python
would raise `KeyError`). -/
def dictGet (d : List (Nat × NetcatListener)) (k : Nat) : Option NetcatListener :=
  match d with
  | [] => none
  | (k0, v0) :: rest => if k0 = k then some v0 else dictGet rest k

/-- Python `d[k] = v`: update in place when the key exists (keeping its
position), append otherwise. -/
def dictSet (d : List (Nat × NetcatListener)) (k : Nat) (v : NetcatListener) :
    List (Nat × NetcatListener) :=
  match d with
  | [] => [(k, v)]
  | (k0, v0) :: rest => if k0 = k then (k, v) :: rest else (k0, v0) :: dictSet rest k v

/-- Python `del d[k]`: remove the entry for `k`. -/
def dictDel (d : List (Nat × NetcatListener)) (k : Nat) :
    List (Nat × NetcatListener) :=
  d.filter (fun kv => kv.1 != k)

/-- A raised Python exception. -/
inductive PyError where
  | runtimeError (msg : String)
deriving DecidableEq

/-- State of the `ConnectionManager` object (lines 96-138). -/
structure ConnectionManager where
  connections : List (Nat × NetcatListener)
  selected_port : Option Nat
deriving DecidableEq

/-- `ConnectionManager.__init__` (lines 97-99). -/
def ConnectionManager.init : ConnectionManager :=
  { connections := [], selected_port := none }

/-- `ConnectionManager.add_connection` (lines 101-107): if `port` is not yet a
key, construct a `NetcatListener`, call `start()` on it (whose spawn attempt
the environment answers with `out`), and register it under `port`
unconditionally — also when `start` failed and printed an error. Otherwise
print that the connection already exists. -/
def ConnectionManager.add_connection (m : ConnectionManager) (port : Nat)
    (out : SpawnOutcome) : ConnectionManager × List Event :=
  if dictMem m.connections port = false then
    let r := (NetcatListener.init port).start out
    ({ m with connections := dictSet m.connections port r.1 }, r.2)
  else
    (m, [Event.printed ("Connection on port " ++ toString port ++ " already exists.")])

/-- `ConnectionManager.remove_connection` (lines 109-114): if `port` is a key,
call `stop()` on its listener and delete the entry (the stopped listener
object is discarded); `self.selected_port` is not touched. Otherwise print
that there is nothing to remove. -/
def ConnectionManager.remove_connection (m : ConnectionManager) (port : Nat) :
    ConnectionManager × List Event :=
  if dictMem m.connections port = true then
    let evs := (dictGet m.connections port).elim [] (fun l => (l.stop).2)
    ({ m with connections := dictDel m.connections port }, evs)
  else
    (m, [Event.printed ("No connection on port " ++ toString port ++ " to remove.")])

/-- `ConnectionManager.list_connections` (lines 116-117): `list(d.keys())`. -/
def ConnectionManager.list_connections (m : ConnectionManager) : List Nat :=
  dictKeys m.connections

/-- `ConnectionManager.select_connection` (lines 119-124): if `port` is a key,
set `selected_port` and print it; otherwise print that there is no such
connection and change nothing. -/
def ConnectionManager.select_connection (m : ConnectionManager) (port : Nat) :
    ConnectionManager × List Event :=
  if dictMem m.connections port = true then
    ({ m with selected_port := some port },
     [Event.printed ("Selected connection on port " ++ toString port ++ ".")])
  else
    (m, [Event.printed ("No connection on port " ++ toString port ++ ".")])

/-- `ConnectionManager.send_command` (lines 126-134): if `self.selected_port in
self.connections` (false in particular when `selected_port` is `None`),
call `send_data(command)` on the selected listener, `time.sleep(0.5)`
(recorded as 500 ms), then `receive_data()` on it and return the response.
Otherwise print "No connection selected." and return `None`. -/
def ConnectionManager.send_command (m : ConnectionManager) (command : String) :
    ConnectionManager × Option String × List Event :=
  match m.selected_port with
  | some p =>
      match dictGet m.connections p with
      | some l =>
          let r1 := l.send_data command
          let r2 := r1.1.receive_data
          ({ m with connections := dictSet m.connections p r2.1 },
           some r2.2,
           r1.2 ++ [Event.slept 500])
      | none => (m, none, [Event.printed "No connection selected."])
  | none => (m, none, [Event.printed "No connection selected."])

/-- CPython semantics of `for k in d.keys(): body(k)` where `body` may mutate
the dict: the keys-view iterator records the dict's size at creation (`n0`)
and a position (`idx`); every call to `next()` first compares the current size
with `n0` and raises `RuntimeError` if they differ, then yields the entry at
the position or ends the loop. Results: final manager state, the raised
exception if any, and the accumulated events. `fuel` bounds the recursion and
is chosen large enough never to run out. -/
def pyForKeysDel (fuel : Nat) (n0 : Nat) (idx : Nat) (m : ConnectionManager)
    (body : ConnectionManager → Nat → ConnectionManager × List Event) :
    ConnectionManager × Option PyError × List Event :=
  match fuel with
  | 0 => (m, some (PyError.runtimeError "out of fuel"), [])
  | fuel + 1 =>
      if m.connections.length ≠ n0 then
        (m, some (PyError.runtimeError "dictionary changed size during iteration"), [])
      else
        match m.connections.drop idx with
        | [] => (m, none, [])
        | (k, _) :: _ =>
            let r := body m k
            let rest := pyForKeysDel fuel n0 (idx + 1) r.1 body
            (rest.1, rest.2.1, r.2 ++ rest.2.2)

/-- `ConnectionManager.stop_all` (lines 136-138):
`for port in self.connections.keys(): self.remove_connection(port)` —
a loop over the live keys view while `remove_connection` deletes entries. -/
def ConnectionManager.stop_all (m : ConnectionManager) :
    ConnectionManager × Option PyError × List Event :=
  pyForKeysDel (m.connections.length + 1) m.connections.length 0 m
    (fun mm port => mm.remove_connection port)

/-! ### Concrete states used by counterexamples and witnesses -/

/-- Reachable state: `add 5` (spawn ok), `select 5`, `remove 5`. -/
def danglingSelectionState : ConnectionManager :=
  (((ConnectionManager.init.add_connection 5 (SpawnOutcome.ok 10)).1.select_connection
    5).1.remove_connection 5).1

/-- Reachable state with two live sessions, on ports 1111 and 2222. -/
def twoSessionState : ConnectionManager :=
  ((ConnectionManager.init.add_connection 1111
    (SpawnOutcome.ok 1)).1.add_connection 2222 (SpawnOutcome.ok 2)).1

/-- Reachable state: `add 4444` where the spawn failed (`nc` missing). -/
def failedSpawnState : ConnectionManager :=
  (ConnectionManager.init.add_connection 4444 SpawnOutcome.fileNotFound).1

/-- A listener whose queued line carries leading whitespace. -/
def paddedQueueListener : NetcatListener :=
  { port := 9
    process := none
    stdout_queue := ["  hi\n"]
    stderr_queue := []
    running := true }

/-- A listener that was started (pid 77) and then stopped once. -/
def stoppedListener : NetcatListener :=
  (((NetcatListener.init 4444).start (SpawnOutcome.ok 77)).1.stop).1

/-- A running listener on port 9000 with one queued output line. -/
def readyListener : NetcatListener :=
  { port := 9000
    process := some { pid := 3, terminated := false }
    stdout_queue := ["hi\n"]
    stderr_queue := []
    running := true }

/-- A manager holding `readyListener` under key 9000, with 9000 selected. -/
def readyState : ConnectionManager :=
  { connections := [(9000, readyListener)], selected_port := some 9000 }

/-- A manager holding one (never-started) listener under key 5, 5 selected. -/
def singleSelectedState : ConnectionManager :=
  { connections := [(5, NetcatListener.init 5)], selected_port := some 5 }

/-! ### Dictionary lemmas -/

theorem dictMem_eq_false_iff (d : List (Nat × NetcatListener)) (k : Nat) :
    dictMem d k = false ↔ k ∉ dictKeys d := by
  simp [dictMem]

theorem dictGet_dictSet_self (d : List (Nat × NetcatListener)) (k : Nat)
    (v : NetcatListener) : dictGet (dictSet d k v) k = some v := by
  induction d with
  | nil => simp [dictSet, dictGet]
  | cons kv rest ih =>
      obtain ⟨k0, v0⟩ := kv
      by_cases h : k0 = k
      · simp [dictSet, dictGet, h]
      · simp [dictSet, dictGet, h, ih]

theorem dictSet_eq_append (d : List (Nat × NetcatListener)) (k : Nat)
    (v : NetcatListener) (h : dictMem d k = false) :
    dictSet d k v = d ++ [(k, v)] := by
  induction d with
  | nil => rfl
  | cons kv rest ih =>
      obtain ⟨k0, v0⟩ := kv
      rw [dictMem_eq_false_iff] at h
      simp only [dictKeys, List.map_cons, List.mem_cons, not_or] at h
      simp only [dictSet, List.cons_append]
      rw [if_neg (fun hk => h.1 hk.symm)]
      have : dictMem rest k = false := by
        rw [dictMem_eq_false_iff]
        exact h.2
      rw [ih this]

theorem dictKeys_append (d e : List (Nat × NetcatListener)) :
    dictKeys (d ++ e) = dictKeys d ++ dictKeys e := by
  simp [dictKeys]

theorem add_connection_of_mem (m : ConnectionManager) (p : Nat) (out : SpawnOutcome)
    (h : dictMem m.connections p = true) :
    m.add_connection p out =
      (m, [Event.printed ("Connection on port " ++ toString p ++ " already exists.")]) := by
  simp [ConnectionManager.add_connection, h]

theorem dictMem_dictDel_self (d : List (Nat × NetcatListener)) (k : Nat) :
    dictMem (dictDel d k) k = false := by
  simp only [dictMem, dictDel, dictKeys, decide_eq_false_iff_not, List.mem_map,
    List.mem_filter]
  rintro ⟨kv, ⟨hkv, hne⟩, hfst⟩
  simp [hfst] at hne

/-! ### Claim C1 -/

/-- Claim C1, counterexample: the state reached by `add 5; select 5; remove 5`
has `selected_port = some 5` while `connections` is empty, so the invariant
"`selected`, when set, is a key of `sessions`" fails on a reachable state, and
removing the selected session did not clear the selection. -/
theorem remove_selected_leaves_dangling :
    danglingSelectionState.selected_port = some 5 ∧
    danglingSelectionState.connections = [] := by decide

/-- Claim C1 (amended): `remove_connection` never touches `selected_port`.
Removing the selected port `p` leaves `selected_port = some p` dangling while
`p` is no longer a key of `connections`. -/
theorem remove_connection_keeps_selected (m : ConnectionManager) (p : Nat)
    (hsel : m.selected_port = some p) (hmem : dictMem m.connections p = true) :
    ((m.remove_connection p).1).selected_port = some p ∧
    dictMem ((m.remove_connection p).1).connections p = false := by
  simp [ConnectionManager.remove_connection, hmem, hsel, dictMem_dictDel_self]

/-- Witness for `remove_connection_keeps_selected` at a concrete state. -/
theorem remove_connection_keeps_selected_witness :
    ((singleSelectedState.remove_connection 5).1).selected_port = some 5 ∧
    dictMem ((singleSelectedState.remove_connection 5).1).connections 5 = false :=
  remove_connection_keeps_selected singleSelectedState 5 rfl (by decide)

/-! ### Claim C2 -/

/-- Claim C2, failing run: on a reachable registry with two live sessions
(ports 1111 and 2222), `stop_all` removes only the first session and then
raises `RuntimeError` ("dictionary changed size during iteration"), because it
deletes entries from `self.connections` while iterating over its live
`.keys()` view; port 2222 is left registered and its process untouched, so
`stop_all` neither empties the registry nor is idempotent. -/
theorem stop_all_raises_runtime_error :
    twoSessionState.list_connections = [1111, 2222] ∧
    (twoSessionState.stop_all).2.1 =
      some (PyError.runtimeError "dictionary changed size during iteration") ∧
    (twoSessionState.stop_all).1.list_connections = [2222] := by decide

/-! ### Claim C3 -/

/-- Claim C3, counterexample: after `add 4444` whose spawn failed with
`FileNotFoundError`, port 4444 IS registered in `connections` (with a dead
listener whose `process` is `none`), so the registry state did change. -/
theorem add_failed_spawn_still_registers :
    dictMem failedSpawnState.connections 4444 = true ∧
    dictGet failedSpawnState.connections 4444 = some (NetcatListener.init 4444) := by
  decide

/-- Claim C3 (amended): when the spawn during `add_connection p` fails, the
error is only printed; the fresh listener — left exactly as constructed, with
`process = none` — is still registered under `p`, and `selected_port` is
untouched. -/
theorem add_connection_spawn_failure (m : ConnectionManager) (p : Nat)
    (out : SpawnOutcome) (hnew : dictMem m.connections p = false)
    (hfail : out.failed = true) :
    dictGet ((m.add_connection p out).1).connections p = some (NetcatListener.init p) ∧
    ((m.add_connection p out).1).selected_port = m.selected_port := by
  cases out with
  | ok pid => simp [SpawnOutcome.failed] at hfail
  | fileNotFound =>
      simp [ConnectionManager.add_connection, hnew, NetcatListener.start,
        dictGet_dictSet_self]
  | otherError msg =>
      simp [ConnectionManager.add_connection, hnew, NetcatListener.start,
        dictGet_dictSet_self]

/-- Witness for `add_connection_spawn_failure` on the empty registry. -/
theorem add_connection_spawn_failure_witness :
    dictGet ((ConnectionManager.init.add_connection 4444
        SpawnOutcome.fileNotFound).1).connections 4444 = some (NetcatListener.init 4444) ∧
    ((ConnectionManager.init.add_connection 4444
        SpawnOutcome.fileNotFound).1).selected_port = ConnectionManager.init.selected_port :=
  add_connection_spawn_failure ConnectionManager.init 4444 SpawnOutcome.fileNotFound
    rfl rfl

/-! ### Claim C4 -/

/-- Claim C4, counterexample: with the single line `"  hi\n"` queued,
`receive_data` returns `"hi"` — `.strip()` removed the leading whitespace too —
which differs from the claim's "concatenation with trailing whitespace
trimmed" (`"  hi"`). -/
theorem receive_data_not_only_trailing :
    (paddedQueueListener.receive_data).2 ≠
      pyRStrip (String.join paddedQueueListener.stdout_queue) := by decide

/-- Claim C4 (amended): `receive_data` is a destructive drain: it returns the
FIFO concatenation of all queued lines with leading AND trailing whitespace
trimmed (so the empty string when nothing is queued), leaves the stdout queue
empty, and a second call with nothing enqueued in between returns `""`. -/
theorem receive_data_drains (l : NetcatListener) :
    (l.receive_data).2 = pyStrip (String.join l.stdout_queue) ∧
    (l.receive_data).1.stdout_queue = [] ∧
    ((l.receive_data).1.receive_data).2 = "" :=
  ⟨rfl, rfl, rfl⟩

/-! ### Claim C5 -/

/-- Claim C5, counterexample: `stoppedListener` was started (pid 77) and
already stopped once, yet a second `stop` still delivers `terminate()` to the
process — because `stop` never resets `self.process` to `None` — so `stop` on
an already-stopped session is not the claimed "no termination is attempted"
no-op. -/
theorem stop_on_stopped_attempts_terminate :
    Event.terminatedProc 77 ∈ (stoppedListener.stop).2 := by decide

/-- Claim C5 (amended): `stop` on a never-started listener (`process = none`)
is a no-op that only prints "... is not running."; but whenever a process
handle is set — including after an earlier `stop` — `stop` attempts
termination again. -/
theorem stop_noop_iff_never_started (l : NetcatListener) :
    (l.process = none →
      l.stop = (l, [Event.printed ("Netcat listener on port " ++ toString l.port ++
        " is not running.")])) ∧
    (∀ pr, l.process = some pr → Event.terminatedProc pr.pid ∈ (l.stop).2) := by
  constructor
  · intro h
    unfold NetcatListener.stop
    rw [h]
  · intro pr h
    unfold NetcatListener.stop
    rw [h]
    simp

/-- Witness for `stop_noop_iff_never_started` on a never-started listener. -/
theorem stop_noop_iff_never_started_witness :
    (NetcatListener.init 9).stop =
      (NetcatListener.init 9,
       [Event.printed ("Netcat listener on port " ++ toString (NetcatListener.init 9).port ++
         " is not running.")]) :=
  (stop_noop_iff_never_started (NetcatListener.init 9)).1 rfl

/-! ### Claim C6 -/

/-- Claim C6: with a valid selection `p` whose listener `l` has a running
process, `send_command cmd` performs exactly: write `cmd ++ "\n"` to the
child's stdin and flush (that is `send_data`), sleep 500 ms, then drain the
stdout queue (`receive_data`) and return that snapshot as the result, storing
the drained listener back under `p`. -/
theorem send_command_sequence (m : ConnectionManager) (p : Nat)
    (l : NetcatListener) (pr : Proc) (cmd : String)
    (hsel : m.selected_port = some p) (hget : dictGet m.connections p = some l)
    (hpr : l.process = some pr) :
    m.send_command cmd =
      ({ m with connections := dictSet m.connections p { l with stdout_queue := [] } },
       some (pyStrip (String.join l.stdout_queue)),
       [Event.wroteStdin l.port (cmd ++ "\n"), Event.flushedStdin l.port,
        Event.slept 500]) := by
  simp [ConnectionManager.send_command, hsel, hget, NetcatListener.send_data, hpr,
    NetcatListener.receive_data]

/-- Witness for `send_command_sequence` on a running selected session. -/
theorem send_command_sequence_witness :
    readyState.send_command "echo hi" =
      ({ readyState with
          connections := dictSet readyState.connections 9000
            { readyListener with stdout_queue := [] } },
       some (pyStrip (String.join readyListener.stdout_queue)),
       [Event.wroteStdin readyListener.port ("echo hi" ++ "\n"),
        Event.flushedStdin readyListener.port, Event.slept 500]) :=
  send_command_sequence readyState 9000 readyListener { pid := 3, terminated := false }
    "echo hi" rfl (by decide) rfl

/-! ### Claim C7 -/

/-- Claim C7: for a port `p` not yet registered, after `add p` the second
`add p` is a no-op on the state, prints the duplicate diagnostic, and the
resulting `list_connections` contains `p` exactly once. -/
theorem add_twice_once_registered (m : ConnectionManager) (p : Nat)
    (out1 out2 : SpawnOutcome) (hnew : dictMem m.connections p = false) :
    ((m.add_connection p out1).1.add_connection p out2).1 = (m.add_connection p out1).1 ∧
    ((m.add_connection p out1).1.add_connection p out2).2 =
      [Event.printed ("Connection on port " ++ toString p ++ " already exists.")] ∧
    List.count p (((m.add_connection p out1).1.add_connection p out2).1.list_connections)
      = 1 := by
  have h1 : (m.add_connection p out1).1.connections
      = m.connections ++ [(p, ((NetcatListener.init p).start out1).1)] := by
    simp only [ConnectionManager.add_connection, hnew]
    simpa using dictSet_eq_append m.connections p _ hnew
  have hmem1 : dictMem (m.add_connection p out1).1.connections p = true := by
    simp [h1, dictMem, dictKeys_append, dictKeys]
  have h2 : ((m.add_connection p out1).1.add_connection p out2)
      = ((m.add_connection p out1).1,
         [Event.printed ("Connection on port " ++ toString p ++ " already exists.")]) :=
    add_connection_of_mem _ p out2 hmem1
  refine ⟨by rw [h2], by rw [h2], ?_⟩
  rw [h2]
  show List.count p ((m.add_connection p out1).1.list_connections) = 1
  have h0 : List.count p (dictKeys m.connections) = 0 := by
    rw [List.count_eq_zero]
    rw [dictMem_eq_false_iff] at hnew
    exact hnew
  simp only [dictKeys] at h0
  simp [ConnectionManager.list_connections, h1, dictKeys_append, dictKeys,
    List.count_append, h0]

/-- Witness for `add_twice_once_registered` starting from the empty registry. -/
theorem add_twice_once_registered_witness :
    ((ConnectionManager.init.add_connection 5 (SpawnOutcome.ok 1)).1.add_connection 5
        (SpawnOutcome.ok 2)).1 = (ConnectionManager.init.add_connection 5 (SpawnOutcome.ok 1)).1 ∧
    ((ConnectionManager.init.add_connection 5 (SpawnOutcome.ok 1)).1.add_connection 5
        (SpawnOutcome.ok 2)).2 =
      [Event.printed ("Connection on port " ++ toString (5 : Nat) ++ " already exists.")] ∧
    List.count 5 (((ConnectionManager.init.add_connection 5
        (SpawnOutcome.ok 1)).1.add_connection 5 (SpawnOutcome.ok 2)).1.list_connections) = 1 :=
  add_twice_once_registered ConnectionManager.init 5 (SpawnOutcome.ok 1)
    (SpawnOutcome.ok 2) rfl

/-! ### Claim C8 -/

/-- Claim C8: `send_command` with no selection (`selected_port = None`) prints
"No connection selected.", returns `None`, and leaves the whole manager state
(sessions and selection) unchanged. -/
theorem send_command_no_selection (m : ConnectionManager) (cmd : String)
    (h : m.selected_port = none) :
    m.send_command cmd = (m, none, [Event.printed "No connection selected."]) := by
  unfold ConnectionManager.send_command
  rw [h]

/-- Witness for `send_command_no_selection` on the fresh registry. -/
theorem send_command_no_selection_witness :
    ConnectionManager.init.send_command "whoami" =
      (ConnectionManager.init, none, [Event.printed "No connection selected."]) :=
  send_command_no_selection ConnectionManager.init "whoami" rfl

/-! ### Claim C9 -/

/-- Claim C9: `select_connection p` never changes `connections`; when `p` is a
key it sets `selected_port := some p` (and prints the selection), and when `p`
is absent it prints the unknown-connection diagnostic and leaves
`selected_port` unchanged. -/
theorem select_connection_spec (m : ConnectionManager) (p : Nat) :
    (m.select_connection p).1.connections = m.connections ∧
    (m.select_connection p).1.selected_port =
      (if dictMem m.connections p = true then some p else m.selected_port) ∧
    (m.select_connection p).2 =
      (if dictMem m.connections p = true
       then [Event.printed ("Selected connection on port " ++ toString p ++ ".")]
       else [Event.printed ("No connection on port " ++ toString p ++ ".")]) := by
  by_cases h : dictMem m.connections p = true
  · simp [ConnectionManager.select_connection, h]
  · simp [ConnectionManager.select_connection, h]

/-! ### Claim C10 -/

/-- Claim C10: on a listener whose process handle is unset (spawn never
succeeded), `send_data` is a silent no-op for every payload: state unchanged
and no write, flush, print or error. -/
theorem send_data_no_process (l : NetcatListener) (data : String)
    (h : l.process = none) : l.send_data data = (l, []) := by
  unfold NetcatListener.send_data
  rw [h]

/-- Witness for `send_data_no_process` on a never-started listener. -/
theorem send_data_no_process_witness :
    (NetcatListener.init 7).send_data "x" = (NetcatListener.init 7, []) :=
  send_data_no_process (NetcatListener.init 7) "x" rfl
